import Mathlib

/-!
Verification development for the 26AS-to-Excel front end
(`src/static/js/script.js`).  The script's data flow is shallowly embedded:
JavaScript values carried in JSON payloads become an inductive `JSVal`,
objects with dynamic key sets become association lists, and each function of
the script that the properties touch becomes a Lean function over an explicit
`ToolState`.
-/

namespace Relieve

/-- A JavaScript value as it can appear in a transaction or assessee field
coming from JSON (plus `undefined` for an absent property). -/
inductive JSVal where
  | undefined
  | null
  | num (q : ℚ)
  | str (s : String)
deriving DecidableEq

/-- JavaScript truthiness: `undefined`, `null`, `0` and `""` are falsy.
(`NaN` never occurs as a stored value here: JSON cannot carry it.) -/
def JSVal.truthy : JSVal → Bool
  | .undefined => false
  | .null => false
  | .num q => decide (q ≠ 0)
  | .str s => decide (s ≠ "")

/-- The JavaScript `a || b` short-circuit, returning the first operand when it
is truthy and the second otherwise. -/
def jsOr (a b : JSVal) : JSVal := if a.truthy then a else b

/-- Decimal digits of the fractional part `r / d` (with `r < d`), most
significant first, stopping at a zero remainder or after `fuel` digits.
JavaScript prints the shortest round-trip decimal; every number rendered in
this development has a short terminating expansion, where the two agree. -/
def fracDigits : Nat → Nat → Nat → List Char
  | 0, _, _ => []
  | _, 0, _ => []
  | fuel + 1, r, d =>
      let r10 := r * 10
      Char.ofNat (48 + r10 / d) :: fracDigits fuel (r10 % d) d

/-- JavaScript number-to-string conversion on a rational. -/
def numToString (q : ℚ) : String :=
  let n := q.num.natAbs
  let d := q.den
  let sign := if q < 0 then "-" else ""
  if n % d = 0 then sign ++ toString (n / d)
  else sign ++ toString (n / d) ++ "." ++ String.mk (fracDigits 20 (n % d) d)

/-- JavaScript string conversion of a value (template-literal interpolation,
`textContent` assignment). -/
def jsToString : JSVal → String
  | .undefined => "undefined"
  | .null => "null"
  | .num q => numToString q
  | .str s => s

def isDigitChar (c : Char) : Bool := decide ('0' ≤ c ∧ c ≤ '9')

def digitsVal (cs : List Char) : Nat :=
  cs.foldl (fun a c => a * 10 + (c.toNat - 48)) 0

/-- JavaScript `parseFloat` on a string: skip leading whitespace, optional
sign, then the longest prefix of digits with an optional fractional part;
`none` models `NaN`.  (The exponent form is not modelled; no value in this
development uses it.) -/
def jsParseFloatStr (s : String) : Option ℚ :=
  let cs := s.data.dropWhile (fun c => c == ' ' || c == '\t' || c == '\n' || c == '\r')
  let signed : ℚ × List Char :=
    match cs with
    | '-' :: rest => (-1, rest)
    | '+' :: rest => (1, rest)
    | _ => (1, cs)
  let ipart := signed.2.takeWhile isDigitChar
  let rest := signed.2.dropWhile isDigitChar
  let fpart :=
    match rest with
    | '.' :: r => r.takeWhile isDigitChar
    | _ => []
  if ipart = [] ∧ fpart = [] then none
  else some (signed.1 * ((digitsVal ipart : ℚ) + (digitsVal fpart : ℚ) / ((10 : ℚ) ^ fpart.length)))

/-- JavaScript `parseFloat` applied to an arbitrary value: the argument is
converted to a string first; a number round-trips to itself. -/
def jsParseFloat : JSVal → Option ℚ
  | .num q => some q
  | v => jsParseFloatStr (jsToString v)

/-- Rounding to two decimals (half away from zero), as a count of hundredths.
This models the rounding of `toFixed(2)` and of `toLocaleString` with two
fraction digits; every value the properties evaluate rounds exactly. -/
def roundHalfUp2 (q : ℚ) : ℤ :=
  if q < 0 then -(Int.floor (-q * 100 + 1 / 2)) else Int.floor (q * 100 + 1 / 2)

/-- Two-digit zero-padded rendering of a number below 100. -/
def pad2 (n : Nat) : String := if n < 10 then "0" ++ toString n else toString n

/-- JavaScript `toFixed(2)`: plain decimal, two fraction digits, no grouping. -/
def toFixed2 (q : ℚ) : String :=
  let c := roundHalfUp2 q
  let a := c.natAbs
  (if c < 0 then "-" else "") ++ toString (a / 100) ++ "." ++ pad2 (a % 100)

/-- Split a least-significant-first digit list into pairs (Indian grouping of
the digits above the last three). -/
def chunk2 : List Char → List (List Char)
  | [] => []
  | [a] => [[a]]
  | a :: b :: rest => [a, b] :: chunk2 rest

/-- Indian digit grouping of a natural number: last three digits, then groups
of two, separated by commas (`1234567 ↦ "12,34,567"`). -/
def groupIndian (n : Nat) : String :=
  let rds := (toString n).data.reverse
  let last3 := (rds.take 3).reverse
  let pairs := (chunk2 (rds.drop 3)).map List.reverse
  String.intercalate "," ((pairs.reverse ++ [last3]).map String.mk)

/-- `Number.prototype.toLocaleString('en-IN', \x7bminimumFractionDigits: 2,
maximumFractionDigits: 2\x7d)`: Indian grouping, exactly two fraction digits. -/
def toLocaleStringEnIN2 (q : ℚ) : String :=
  let c := roundHalfUp2 q
  let a := c.natAbs
  (if c < 0 then "-" else "") ++ groupIndian (a / 100) ++ "." ++ pad2 (a % 100)

/-- The `formatAmount` helper of `updateExcelPreview` and
`showAllTransactions`: `if (!amt && amt !== 0) return '0.00';` then
`parseFloat(amt).toLocaleString('en-IN', ...)`.  A value `parseFloat` cannot
parse gives `NaN`, which formats as the string "NaN". -/
def formatAmount (amt : JSVal) : String :=
  if amt.truthy = false ∧ amt ≠ JSVal.num 0 then "0.00"
  else
    match jsParseFloat amt with
    | none => "NaN"
    | some q => toLocaleStringEnIN2 q

/-- The status cell of a rendered row: `transaction.status || 'F'`. -/
def statusCell (s : JSVal) : String := jsToString (jsOr s (.str "F"))

/-- The rate cell of a rendered row:
`parseFloat(transaction.rate || 0).toFixed(2)` followed by `%`. -/
def rateCell (r : JSVal) : String :=
  (match jsParseFloat (jsOr r (.num 0)) with
   | none => "NaN"
   | some q => toFixed2 q) ++ "%"

/-- One transaction object of the server payload; every field is a raw
JavaScript value, since nothing in the script constrains the server's JSON. -/
structure Transaction where
  sr_no : JSVal
  deductor_name : JSVal
  deductor_tan : JSVal
  «section» : JSVal
  transaction_date : JSVal
  status : JSVal
  date_of_booking : JSVal
  amount_paid : JSVal
  tax_deducted : JSVal
  tds_deposited : JSVal
  net_amount : JSVal
  rate : JSVal
  page_number : JSVal
deriving DecidableEq

/-- The 13 cells of one rendered table row, exactly as the row template of
`updateExcelPreview` (and the identical one of `showAllTransactions`) builds
them, inline styling aside. -/
def renderRow (t : Transaction) : List String :=
  [ jsToString (jsOr t.sr_no (.str ""))
  , jsToString (jsOr t.deductor_name (.str "Not Available"))
  , jsToString (jsOr t.deductor_tan (.str ""))
  , jsToString (jsOr t.«section» (.str ""))
  , jsToString (jsOr t.transaction_date (.str ""))
  , statusCell t.status
  , jsToString (jsOr t.date_of_booking (.str ""))
  , "₹" ++ formatAmount t.amount_paid
  , "₹" ++ formatAmount t.tax_deducted
  , "₹" ++ formatAmount t.tds_deposited
  , "₹" ++ formatAmount t.net_amount
  , rateCell t.rate
  , jsToString (jsOr t.page_number (.str "")) ]

/-- The rows of the limited preview: `extractedData.transactions.slice(0, 50)`
rendered in order by the `forEach` of `updateExcelPreview`. -/
def previewRows (txs : List Transaction) : List (List String) :=
  (txs.take 50).map renderRow

/-- The rows rendered by `showAllTransactions`: every transaction, in order. -/
def allRows (txs : List Transaction) : List (List String) :=
  txs.map renderRow

/-- A JavaScript object with a dynamic key set, as an ordered association
list (the server's `assessee_info` is such an object). -/
abbrev JSObject := List (String × JSVal)

/-- Property access `o.k`: `undefined` when the key is absent. -/
def getField (o : JSObject) (k : String) : JSVal :=
  match o.lookup k with
  | some v => v
  | none => .undefined

/-- Whether the object carries the key at all (JS `k in o`). -/
def hasKey (o : JSObject) (k : String) : Bool := (o.lookup k).isSome

/-- The five keys of the assessee object literal built by the script. -/
def fiveKeys : List String := ["name", "pan", "financialYear", "address", "assessmentYear"]

/-- The object has exactly the five assessee keys, in the literal's order. -/
def hasFiveKeyShape (o : JSObject) : Bool := o.map Prod.fst == fiveKeys

/-- The assessee object literal with all five fields explicitly empty, built
at module load, in `handleFile` and in `resetTool`. -/
def emptyAssessee : JSObject :=
  [ ("name", .str ""), ("pan", .str ""), ("financialYear", .str "")
  , ("address", .str ""), ("assessmentYear", .str "") ]

/-- The three text fields `updateAssesseeInfo` writes. -/
structure AssesseeDisplay where
  nameText : String
  panText : String
  fyText : String
deriving DecidableEq

/-- `updateAssesseeInfo`: behind a guard on `name`/`pan`/`financialYear`/
`financial_year` truthiness, writes the three display fields, the financial
year coming from the fallback chain
`assessee.financial_year || assessee.financialYear || "Not Available"`.
`none` models the guard failing (the display is left untouched). -/
def updateAssesseeInfo (o : JSObject) : Option AssesseeDisplay :=
  if (getField o "name").truthy || (getField o "pan").truthy ||
     (getField o "financialYear").truthy || (getField o "financial_year").truthy then
    some
      { nameText := jsToString (jsOr (getField o "name") (.str "Not Available"))
      , panText := jsToString (jsOr (getField o "pan") (.str "Not Available"))
      , fyText := jsToString (jsOr (getField o "financial_year")
                    (jsOr (getField o "financialYear") (.str "Not Available"))) }
  else none

/-- `extractedData.processingStats`. -/
structure ProcessingStats where
  startTime : ℤ
  endTime : ℤ
  pageCount : ℕ
deriving DecidableEq

/-- `extractedData`: assessee object, transaction list, processing stats. -/
structure ExtractedData where
  assessee : JSObject
  transactions : List Transaction
  processingStats : ProcessingStats
deriving DecidableEq

/-- The fresh `extractedData` object literal (module load, `handleFile`,
`resetTool`). -/
def initialExtractedData : ExtractedData :=
  { assessee := emptyAssessee
  , transactions := []
  , processingStats := { startTime := 0, endTime := 0, pageCount := 0 } }

/-- The `userData` record persisted in localStorage. -/
structure UserData where
  totalFilesProcessed : ℕ
  todayFilesProcessed : ℕ
  lastResetDate : String
deriving DecidableEq

/-- The module-load `userData` literal, with `lastResetDate` set to today. -/
def initUserData (today : String) : UserData :=
  { totalFilesProcessed := 0, todayFilesProcessed := 0, lastResetDate := today }

/-- `loadUserData`: with no saved record the module-load literal stands; a
saved record replaces `userData` wholesale and, when its `lastResetDate` is
not today, `todayFilesProcessed` is zeroed and today is stamped —
`totalFilesProcessed` is not touched. -/
def loadUserData (saved : Option UserData) (today : String) : UserData :=
  match saved with
  | none => initUserData today
  | some d =>
      if d.lastResetDate ≠ today then
        { d with todayFilesProcessed := 0, lastResetDate := today }
      else d

/-- The name and size of a selected browser file. -/
structure FileInfo where
  name : String
  size : ℕ
deriving DecidableEq

/-- The body of the preview table: either the "No Data to Display"
placeholder row or a list of rendered rows (`truncatedNotice` models the
"Showing first 50" info row appended when more than 50 transactions exist). -/
inductive ExcelBody where
  | placeholder
  | rows (rs : List (List String)) (truncatedNotice : Bool)
deriving DecidableEq

/-- A notification shown by `showNotification`: message and kind. -/
abbrev Notice := String × String

/-- The mutable state of the tool that the verified functions read or write:
the module globals (`selectedFile`, `extractedData`, `totalPages`,
`currentPage`, `userData`) and the DOM pieces the properties mention (parse
and download button enablement, the preview table header and body). -/
structure ToolState where
  selectedFile : Option FileInfo
  extractedData : ExtractedData
  totalPages : ℕ
  currentPage : ℕ
  parseBtnDisabled : Bool
  downloadBtnDisabled : Bool
  excelHeader : List String
  excelBody : ExcelBody
  userData : UserData
deriving DecidableEq

/-- `name.toLowerCase().endsWith('.pdf')`, the PDF-name test of
`handleFile`. -/
def isPdfName (name : String) : Bool :=
  List.isSuffixOf ".pdf".data (name.data.map Char.toLower)

/-- `handleFile`: a non-PDF name is rejected with an error notification
before any state is touched; a PDF name stores the file, rebuilds
`extractedData` from the fresh literal and enables the parse button (the
asynchronous `loadPDF` it kicks off is modelled separately). -/
def handleFile (st : ToolState) (f : FileInfo) : ToolState × List Notice :=
  if isPdfName f.name = false then
    (st, [("Please select a PDF file.", "error")])
  else
    ({ st with
        selectedFile := some f
        extractedData := initialExtractedData
        parseBtnDisabled := false }, [])

/-- The success path of `loadPDF`: stores the loaded document's `numPages`
into `totalPages` and `processingStats.pageCount`, and resets the viewer to
page 1. -/
def loadPDFSuccess (st : ToolState) (numPages : ℕ) : ToolState :=
  { st with
      totalPages := numPages
      currentPage := 1
      extractedData :=
        { st.extractedData with
            processingStats :=
              { st.extractedData.processingStats with pageCount := numPages } } }

/-- The 13 header labels written by `updateExcelPreview`. -/
def previewHeader : List String :=
  [ "Sr.No", "Name of Deductor", "TAN of Deductor", "Section"
  , "Transaction Date", "Status of Booking*", "Date of Booking"
  , "Amount Paid / Credited", "Tax Deducted", "TDS Deposited"
  , "Net Amount", "Rate %", "PDF Page No" ]

/-- The 11 header labels written by `resetTool` (no "Date of Booking", no
"PDF Page No"). -/
def resetHeader : List String :=
  [ "Sr.No", "Name of Deductor", "TAN of Deductor", "Section"
  , "Transaction Date", "Status of Booking*"
  , "Amount Paid / Credited", "Tax Deducted", "TDS Deposited"
  , "Net Amount", "Rate %" ]

/-- `updateExcelPreview`: with zero transactions only the body is replaced by
the placeholder (the header is left as it is); otherwise the 13-column header
is written and the first 50 transactions are rendered in order, with the
truncation notice when more than 50 exist.  (The `excelInfo`/`excelRowInfo`
caption strings are not modelled.) -/
def updateExcelPreview (st : ToolState) : ToolState :=
  if st.extractedData.transactions.length = 0 then
    { st with excelBody := .placeholder }
  else
    { st with
        excelHeader := previewHeader
        excelBody := .rows (previewRows st.extractedData.transactions)
          (decide (st.extractedData.transactions.length > 50)) }

/-- `showAllTransactions`: returns at once on zero transactions; otherwise
re-renders the body with every transaction, in order, leaving the header. -/
def showAllTransactions (st : ToolState) : ToolState :=
  if st.extractedData.transactions.length = 0 then st
  else
    { st with excelBody := .rows (allRows st.extractedData.transactions) false }

/-- The `result.data` payload of a successful `/upload` response. -/
structure ServerParseData where
  assessee_info : JSObject
  transactions : List Transaction
deriving DecidableEq

/-- `parsePDF`, success branch: with no selected file the function returns at
once; otherwise `startTime` is stamped on entry, the server payload replaces
`assessee` and `transactions` wholesale, `endTime` is stamped, the preview is
re-rendered and the download button is enabled.  `processingStats.pageCount`
is never touched. -/
def parsePDFSuccess (st : ToolState) (d : ServerParseData) (tStart tEnd : ℤ) :
    ToolState :=
  match st.selectedFile with
  | none => st
  | some _ =>
      updateExcelPreview
        { st with
            extractedData :=
              { assessee := d.assessee_info
              , transactions := d.transactions
              , processingStats :=
                  { st.extractedData.processingStats with
                      startTime := tStart, endTime := tEnd } }
            downloadBtnDisabled := false }

/-- `resetTool`: clears the file and `extractedData`, disables both buttons,
writes the 11-column reset header, then runs `updateExcelPreview` — which,
with zero transactions, replaces only the body and leaves that header. -/
def resetTool (st : ToolState) : ToolState :=
  updateExcelPreview
    { st with
        selectedFile := none
        totalPages := 0
        currentPage := 1
        extractedData := initialExtractedData
        parseBtnDisabled := true
        downloadBtnDisabled := true
        excelHeader := resetHeader }

/-- The figures `showDownloadModal` writes into the report modal (the
processing-time and estimated-size fields are not modelled). -/
structure ModalInfo where
  pageCount : ℕ
  transactionCount : ℕ
deriving DecidableEq

/-- `showDownloadModal`: with zero transactions it shows an error
notification and returns without opening the modal (`none`); otherwise the
modal opens, its page count read as `processingStats.pageCount || 1` (the
fallback fires only on a falsy, i.e. zero, stored count). -/
def showDownloadModal (st : ToolState) : Option ModalInfo :=
  if st.extractedData.transactions.length = 0 then none
  else
    some
      { pageCount :=
          if st.extractedData.processingStats.pageCount = 0 then 1
          else st.extractedData.processingStats.pageCount
      , transactionCount := st.extractedData.transactions.length }

/-- The body of the `/download_excel` request: the object literal
`downloadData` has exactly these two fields. -/
structure DownloadRequest where
  assessee_info : JSObject
  transactions : List Transaction
deriving DecidableEq

/-- The parsed JSON of a `/download_excel` response. -/
structure DownloadResponse where
  success : Bool
  download_url : String
  filename : String
deriving DecidableEq

/-- How a `downloadExcelFile` call ends for the user. -/
inductive DownloadOutcome where
  | blocked (msg : String)
  | saved (url : String) (filename : String)
  | failed (msg : String)
deriving DecidableEq

/-- `downloadExcelFile`: zero transactions blocks the call with an error
notification and no request; otherwise the two-field `downloadData` request
is sent (`resp = none` models the fetch or HTTP status throwing).  On
`success` the payload is saved under the server's `filename` and both usage
counters are incremented; on any failure the state is left unchanged. -/
def downloadExcelFile (st : ToolState) (resp : Option DownloadResponse) :
    ToolState × Option DownloadRequest × DownloadOutcome :=
  if st.extractedData.transactions.length = 0 then
    (st, none, .blocked "No data to download.")
  else
    let req : DownloadRequest :=
      { assessee_info := st.extractedData.assessee
      , transactions := st.extractedData.transactions }
    match resp with
    | none => (st, some req, .failed "Server error")
    | some r =>
        if r.success then
          ({ st with
              userData :=
                { st.userData with
                    totalFilesProcessed := st.userData.totalFilesProcessed + 1
                    todayFilesProcessed := st.userData.todayFilesProcessed + 1 } },
           some req, .saved r.download_url r.filename)
        else (st, some req, .failed "Failed to generate Excel file")

/-! ### Spec-side definitions (§3 schema) and concrete sample data -/

/-- Modelled from the spec's words (§3): the fixed 13-column order of the
data sheet, `sr_no` first, `page_number` last. -/
def specColumnOrder : List String :=
  [ "sr_no", "deductor_name", "deductor_tan", "section", "transaction_date"
  , "status", "date_of_booking", "amount_paid", "tax_deducted"
  , "tds_deposited", "net_amount", "rate", "page_number" ]

/-- The display label the preview table uses for each §3 column. -/
def columnLabel : String → String
  | "sr_no" => "Sr.No"
  | "deductor_name" => "Name of Deductor"
  | "deductor_tan" => "TAN of Deductor"
  | "section" => "Section"
  | "transaction_date" => "Transaction Date"
  | "status" => "Status of Booking*"
  | "date_of_booking" => "Date of Booking"
  | "amount_paid" => "Amount Paid / Credited"
  | "tax_deducted" => "Tax Deducted"
  | "tds_deposited" => "TDS Deposited"
  | "net_amount" => "Net Amount"
  | "rate" => "Rate %"
  | "page_number" => "PDF Page No"
  | s => s

/-- The tool's state right after `init`: no file, the fresh `extractedData`,
both buttons disabled, empty preview.  (The initial header markup comes from
the static HTML, which is not in the repository; no property reads the
header before the script first writes it, so its initial value is free.) -/
def initState : ToolState :=
  { selectedFile := none
  , extractedData := initialExtractedData
  , totalPages := 0
  , currentPage := 1
  , parseBtnDisabled := true
  , downloadBtnDisabled := true
  , excelHeader := resetHeader
  , excelBody := .placeholder
  , userData := initUserData "Sun Oct 12 2025" }

def samplePdf : FileInfo := { name := "Form26AS.pdf", size := 245 }

def docxFile : FileInfo := { name := "scan.docx", size := 88 }

/-- A fully populated sample transaction. -/
def tx1 : Transaction :=
  { sr_no := .num 1, deductor_name := .str "ACME LTD"
  , deductor_tan := .str "DELA12345B", «section» := .str "194A"
  , transaction_date := .str "15-Mar-2024", status := .str "F"
  , date_of_booking := .str "20-Mar-2024", amount_paid := .num 10000
  , tax_deducted := .num 1000, tds_deposited := .num 1000
  , net_amount := .num 9000, rate := .num 10, page_number := .num 2 }

/-- A sample transaction with `status` and `rate` absent. -/
def tx2 : Transaction :=
  { tx1 with sr_no := .num 2, status := .undefined, rate := .undefined }

/-- An `assessee_info` object as the snake-case server parser sends it:
three keys, no `financialYear`, no `address`, no `assessmentYear`. -/
def serverAssessee : JSObject :=
  [ ("name", .str "RAHUL"), ("pan", .str "ABCDE1234F")
  , ("financial_year", .str "2023-24") ]

def sampleParseData : ServerParseData :=
  { assessee_info := serverAssessee, transactions := [tx1, tx2] }

def okResponse : DownloadResponse :=
  { success := true, download_url := "/download/26AS_123.xlsx"
  , filename := "26AS_123.xlsx" }

/-- The state after selecting `samplePdf`, loading its three pages and a
successful parse of `sampleParseData`. -/
def parsedState : ToolState :=
  parsePDFSuccess (loadPDFSuccess (handleFile initState samplePdf).1 3)
    sampleParseData 5 9

lemma samplePdf_isPdf : isPdfName samplePdf.name = true := by decide

lemma parsedState_transactions :
    parsedState.extractedData.transactions = [tx1, tx2] := by
  simp [parsedState, parsePDFSuccess, loadPDFSuccess, handleFile,
    updateExcelPreview, sampleParseData, samplePdf_isPdf]

/-! ### Claim theorems -/

lemma parsePDFSuccess_pageCount (st : ToolState) (d : ServerParseData)
    (tS tE : ℤ) :
    (parsePDFSuccess st d tS tE).extractedData.processingStats.pageCount =
      st.extractedData.processingStats.pageCount := by
  cases hsel : st.selectedFile with
  | none => simp [parsePDFSuccess, hsel]
  | some g =>
      simp only [parsePDFSuccess, hsel, updateExcelPreview]
      split <;> rfl

/-- C1: for every successfully loaded document, the processing stats' page
count equals the document's page count, regardless of how many transactions
the parse later returns: selecting a PDF resets `pageCount` to 0, a
successful `loadPDF` of an `n`-page document stores `n`, a successful parse
with ANY transaction payload — the empty one included — leaves it at `n`,
and whenever the download modal opens (it needs at least one transaction) it
reports exactly `n` (its `|| 1` fallback cannot fire since a loaded document
has at least one page). -/
theorem c1_page_count_invariant (st : ToolState) (f : FileInfo) (n : ℕ)
    (d : ServerParseData) (tS tE : ℤ)
    (hf : isPdfName f.name = true) (hn : 1 ≤ n) :
    (handleFile st f).1.extractedData.processingStats.pageCount = 0 ∧
    (loadPDFSuccess (handleFile st f).1 n).extractedData.processingStats.pageCount = n ∧
    (parsePDFSuccess (loadPDFSuccess (handleFile st f).1 n) d tS tE).extractedData.processingStats.pageCount = n ∧
    (d.transactions ≠ [] →
      (showDownloadModal (parsePDFSuccess (loadPDFSuccess (handleFile st f).1 n) d tS tE)).map
        ModalInfo.pageCount = some n) := by
  have hn0 : n ≠ 0 := by omega
  refine ⟨?_, ?_, ?_, ?_⟩
  · simp [handleFile, hf, initialExtractedData]
  · simp [handleFile, hf, loadPDFSuccess, initialExtractedData]
  · rw [parsePDFSuccess_pageCount]
    simp [loadPDFSuccess]
  · intro hd
    simp [handleFile, hf, loadPDFSuccess, parsePDFSuccess, updateExcelPreview,
      showDownloadModal, initialExtractedData, hd, hn0]

/-- Witness for C1 at concrete runs of a three-page `samplePdf`: the stored
page count survives a parse returning ZERO transactions, and with the
two-transaction `sampleParseData` the modal reports 3. -/
theorem c1_page_count_invariant_witness :
    isPdfName samplePdf.name = true ∧ (1 : ℕ) ≤ 3 ∧
    (parsePDFSuccess (loadPDFSuccess (handleFile initState samplePdf).1 3)
        { assessee_info := serverAssessee, transactions := [] } 5 9).extractedData.processingStats.pageCount = 3 ∧
    sampleParseData.transactions ≠ [] ∧
    (showDownloadModal (parsePDFSuccess (loadPDFSuccess (handleFile initState samplePdf).1 3)
        sampleParseData 5 9)).map ModalInfo.pageCount = some 3 :=
  ⟨by decide, by decide,
   (c1_page_count_invariant initState samplePdf 3
      { assessee_info := serverAssessee, transactions := [] } 5 9
      (by decide) (by decide)).2.2.1,
   by simp [sampleParseData],
   (c1_page_count_invariant initState samplePdf 3 sampleParseData 5 9
      (by decide) (by decide)).2.2.2 (by simp [sampleParseData])⟩

/-- C2 counterexample: with zero transactions the download path does NOT
proceed — `showDownloadModal` refuses to open the modal and
`downloadExcelFile` sends no request, both ending in the blocked error path,
contrary to the claim that zero transactions never blocks the download. -/
theorem c2_zero_transactions_blocked_cex :
    showDownloadModal initState = none ∧
    downloadExcelFile initState (some okResponse) =
      (initState, none, .blocked "No data to download.") := by decide

/-- C2 as amended: the front end gates the spreadsheet download on having at
least one transaction — with zero transactions both `showDownloadModal` and
`downloadExcelFile` exit early on the error path with no modal and no
request; with at least one transaction the modal opens and the request is
sent with the current data. -/
theorem c2_download_gating (st : ToolState) :
    (st.extractedData.transactions = [] →
        showDownloadModal st = none ∧
        ∀ resp, downloadExcelFile st resp =
          (st, none, .blocked "No data to download.")) ∧
    (st.extractedData.transactions ≠ [] →
        (showDownloadModal st).isSome = true ∧
        ∀ resp, (downloadExcelFile st resp).2.1 =
          some { assessee_info := st.extractedData.assessee
               , transactions := st.extractedData.transactions }) := by
  constructor
  · intro h
    refine ⟨by simp [showDownloadModal, h], fun resp => by simp [downloadExcelFile, h]⟩
  · intro h
    refine ⟨by simp [showDownloadModal, h], fun resp => ?_⟩
    cases resp with
    | none => simp [downloadExcelFile, h]
    | some r =>
        by_cases hs : r.success = true
        · simp [downloadExcelFile, h, hs]
        · simp [downloadExcelFile, h, hs]

/-- Witness for C2's amended theorem at the empty initial state. -/
theorem c2_download_gating_witness :
    showDownloadModal initState = none ∧
    downloadExcelFile initState none =
      (initState, none, .blocked "No data to download.") :=
  ⟨((c2_download_gating initState).1 rfl).1,
   ((c2_download_gating initState).1 rfl).2 none⟩

/-- C3 counterexample: after `resetTool` the table header is the 11-column
reset header — "Date of Booking" and "PDF Page No" are missing — not the
fixed 13-column schema of §3, refuting "in every state". -/
theorem c3_reset_header_cex :
    (resetTool initState).excelHeader = resetHeader ∧
    resetHeader ≠ specColumnOrder.map columnLabel ∧
    resetHeader.length = 11 ∧
    (specColumnOrder.map columnLabel).length = 13 := by decide

/-- C3 as amended: whenever the preview is rendered with at least one
transaction its header is exactly the 13-column §3 schema in order (`sr_no`'s
label first, `page_number`'s label last), but after a reset the header is the
11-column reset header, which drops "Date of Booking" and "PDF Page No"
(`updateExcelPreview` leaves the header untouched when there are zero
transactions). -/
theorem c3_header_schema (st : ToolState)
    (h : st.extractedData.transactions ≠ []) :
    (updateExcelPreview st).excelHeader = specColumnOrder.map columnLabel ∧
    (∀ s : ToolState, (resetTool s).excelHeader = resetHeader) := by
  constructor
  · have hlen : st.extractedData.transactions.length ≠ 0 := by
      simpa [List.length_eq_zero] using h
    simp [updateExcelPreview, hlen]
    decide
  · intro s
    simp [resetTool, updateExcelPreview, initialExtractedData]

/-- Witness for C3's amended theorem at the concrete parsed state. -/
theorem c3_header_schema_witness :
    parsedState.extractedData.transactions ≠ [] ∧
    (updateExcelPreview parsedState).excelHeader = specColumnOrder.map columnLabel :=
  ⟨by simp [parsedState_transactions],
   (c3_header_schema parsedState (by simp [parsedState_transactions])).1⟩

/-- C4 counterexample: a non-numeric (truthy) amount cell such as "abc" is
rendered as "NaN", not as the claimed "0.00" — `parseFloat("abc")` is `NaN`
and the guard `!amt && amt !== 0` does not catch a non-empty string. -/
theorem c4_non_numeric_amount_cex :
    formatAmount (.str "abc") = "NaN" ∧ ("NaN" : String) ≠ "0.00" := by decide

/-- C4 as amended: a missing `status` renders as "F"; a missing `rate`
renders as "0.00%"; a missing amount (absent, `null` or empty string — any
falsy value other than the number 0) renders as "0.00"; a literal amount of
0 also renders as "0.00", not as missing; but a truthy non-numeric amount
string renders as "NaN" rather than "0.00". -/
theorem c4_display_defaults (amt s r : JSVal)
    (hamt : amt.truthy = false) (hne : amt ≠ .num 0)
    (hs : s.truthy = false) (hr : r.truthy = false) :
    formatAmount amt = "0.00" ∧
    formatAmount (.num 0) = "0.00" ∧
    statusCell s = "F" ∧
    rateCell r = "0.00%" ∧
    formatAmount (.str "abc") = "NaN" := by
  refine ⟨?_, ?_, ?_, ?_, by decide⟩
  · simp [formatAmount, hamt, hne]
  · norm_num [formatAmount, jsParseFloat, toLocaleStringEnIN2, roundHalfUp2,
      JSVal.truthy, groupIndian, pad2, chunk2]
    decide
  · simp [statusCell, jsOr, hs, jsToString]
  · simp only [rateCell, jsOr, hr, if_neg (by simp [hr] : ¬ r.truthy = true)]
    norm_num [jsParseFloat, toFixed2, roundHalfUp2, pad2]
    decide

/-- Witness for C4's amended theorem with all three fields absent. -/
theorem c4_display_defaults_witness :
    JSVal.truthy .undefined = false ∧ JSVal.undefined ≠ .num 0 ∧
    (formatAmount .undefined = "0.00" ∧ formatAmount (.num 0) = "0.00" ∧
     statusCell .undefined = "F" ∧ rateCell .undefined = "0.00%" ∧
     formatAmount (.str "abc") = "NaN") :=
  ⟨by decide, by decide,
   c4_display_defaults .undefined .undefined .undefined (by decide) (by decide)
     (by decide) (by decide)⟩

/-- C5 counterexample: the success branch of `parsePDF` replaces the assessee
object wholesale with the server's `assessee_info`; with the snake-case
three-key object the server parser sends, the stored assessee afterwards has
no `financialYear`, `address` or `assessmentYear` key at all — the five-key
shape is not preserved across `parsePDF`. -/
theorem c5_parse_replaces_assessee_cex :
    parsedState.extractedData.assessee = serverAssessee ∧
    hasKey serverAssessee "financialYear" = false ∧
    hasKey serverAssessee "address" = false ∧
    hasKey serverAssessee "assessmentYear" = false ∧
    hasFiveKeyShape serverAssessee = false := by decide

/-- C5 as amended: the initial state, the per-file reset in `handleFile` and
`resetTool` each rebuild the assessee object with exactly the five keys
`name`, `pan`, `financialYear`, `address`, `assessmentYear` set to empty
strings; but `parsePDF` assigns the server's `assessee_info` object
unchanged, so after a parse the assessee has whatever key set the server
sent, and the five-key shape is not an invariant of the whole lifecycle. -/
theorem c5_assessee_shape (st : ToolState) (f : FileInfo)
    (d : ServerParseData) (tS tE : ℤ) (hf : isPdfName f.name = true) :
    initialExtractedData.assessee = emptyAssessee ∧
    hasFiveKeyShape emptyAssessee = true ∧
    (handleFile st f).1.extractedData.assessee = emptyAssessee ∧
    (resetTool st).extractedData.assessee = emptyAssessee ∧
    (∀ g, st.selectedFile = some g →
        (parsePDFSuccess st d tS tE).extractedData.assessee = d.assessee_info) := by
  refine ⟨?_, ?_, ?_, ?_, ?_⟩
  · decide
  · decide
  · simp [handleFile, hf, initialExtractedData]
  · simp [resetTool, updateExcelPreview, initialExtractedData]
  · intro g hg
    simp only [parsePDFSuccess, hg, updateExcelPreview]
    split <;> rfl

/-- Witness for C5's amended theorem at the concrete selected state. -/
theorem c5_assessee_shape_witness :
    isPdfName samplePdf.name = true ∧
    (handleFile initState samplePdf).1.extractedData.assessee = emptyAssessee :=
  ⟨samplePdf_isPdf,
   (c5_assessee_shape initState samplePdf sampleParseData 5 9 samplePdf_isPdf).2.2.1⟩

/-- C6: whenever the download request is sent (at least one transaction),
its body is exactly the two-field `downloadData` object — the current
assessee record and the current ordered transaction list — and on a
`success` response the payload is offered as a file under the
server-generated `filename`. -/
theorem c6_download_request_shape (st : ToolState) (r : DownloadResponse)
    (h : st.extractedData.transactions ≠ []) :
    (downloadExcelFile st (some r)).2.1 =
      some { assessee_info := st.extractedData.assessee
           , transactions := st.extractedData.transactions } ∧
    (r.success = true →
        (downloadExcelFile st (some r)).2.2 = .saved r.download_url r.filename) := by
  by_cases hs : r.success = true
  · simp [downloadExcelFile, h, hs]
  · simp [downloadExcelFile, h, hs]

/-- Witness for C6 at the concrete parsed state and a success response. -/
theorem c6_download_request_shape_witness :
    parsedState.extractedData.transactions ≠ [] ∧
    (downloadExcelFile parsedState (some okResponse)).2.2 =
      .saved okResponse.download_url okResponse.filename :=
  ⟨by simp [parsedState_transactions],
   (c6_download_request_shape parsedState okResponse
      (by simp [parsedState_transactions])).2 rfl⟩

/-- C7 counterexample: the displayed financial year is NOT determined by a
single field.  `fyA`/`fyB` agree on `financialYear` yet display different
years (so `financialYear` alone does not determine it), and `fyC`/`fyD`
agree on `financial_year` yet display different years (so `financial_year`
alone does not determine it): the code uses the two-field fallback chain. -/
theorem c7_fy_fallback_cex :
    (updateAssesseeInfo [("financialYear", .str "2022-23")]).map
        AssesseeDisplay.fyText = some "2022-23" ∧
    (updateAssesseeInfo [("financial_year", .str "2023-24"),
        ("financialYear", .str "2022-23")]).map
        AssesseeDisplay.fyText = some "2023-24" ∧
    getField [("financialYear", JSVal.str "2022-23")] "financialYear" =
      getField [("financial_year", JSVal.str "2023-24"),
        ("financialYear", JSVal.str "2022-23")] "financialYear" ∧
    (updateAssesseeInfo [("financial_year", .str ""),
        ("financialYear", .str "A")]).map AssesseeDisplay.fyText = some "A" ∧
    (updateAssesseeInfo [("financial_year", .str ""),
        ("financialYear", .str "B")]).map AssesseeDisplay.fyText = some "B" ∧
    getField [("financial_year", JSVal.str ""), ("financialYear", JSVal.str "A")]
        "financial_year" =
      getField [("financial_year", JSVal.str ""), ("financialYear", JSVal.str "B")]
        "financial_year" := by decide

/-- C7 as amended: whenever `updateAssesseeInfo` runs (its guard holds), the
displayed financial year comes from the two-field fallback chain — a truthy
`financial_year` wins, otherwise a truthy `financialYear`, otherwise the
literal "Not Available"; there is no single canonical field. -/
theorem c7_fy_fallback_chain (o : JSObject)
    (hg : ((getField o "name").truthy || (getField o "pan").truthy ||
           (getField o "financialYear").truthy ||
           (getField o "financial_year").truthy) = true) :
    ((getField o "financial_year").truthy = true →
        (updateAssesseeInfo o).map AssesseeDisplay.fyText =
          some (jsToString (getField o "financial_year"))) ∧
    ((getField o "financial_year").truthy = false →
     (getField o "financialYear").truthy = true →
        (updateAssesseeInfo o).map AssesseeDisplay.fyText =
          some (jsToString (getField o "financialYear"))) ∧
    ((getField o "financial_year").truthy = false →
     (getField o "financialYear").truthy = false →
        (updateAssesseeInfo o).map AssesseeDisplay.fyText =
          some "Not Available") := by
  refine ⟨?_, ?_, ?_⟩
  · intro h1
    simp [updateAssesseeInfo, hg, jsOr, h1]
  · intro h1 h2
    simp [updateAssesseeInfo, hg, jsOr, h1, h2]
  · intro h1 h2
    simp only [updateAssesseeInfo, hg]
    simp [jsOr, h1, h2, jsToString]

/-- Witness for C7's amended theorem: with both fields present and truthy,
the snake-case `financial_year` wins. -/
theorem c7_fy_fallback_chain_witness :
    ((getField [("financial_year", JSVal.str "2023-24"),
        ("financialYear", JSVal.str "2022-23")] "financial_year").truthy = true) ∧
    (updateAssesseeInfo [("financial_year", .str "2023-24"),
        ("financialYear", .str "2022-23")]).map AssesseeDisplay.fyText =
      some (jsToString (getField [("financial_year", JSVal.str "2023-24"),
        ("financialYear", JSVal.str "2022-23")] "financial_year")) :=
  ⟨by decide,
   (c7_fy_fallback_chain [("financial_year", .str "2023-24"),
      ("financialYear", .str "2022-23")] (by decide)).1 (by decide)⟩

/-- C8: the transaction sequence is never re-sorted downstream: the preview
renders exactly the first `min(50, n)` transactions and `showAllTransactions`
renders all `n`, each row `i` coming from transaction `i` in extraction
order, and those are exactly the row lists the two rendering functions store
in the table body. -/
theorem c8_order_preserved (txs : List Transaction) :
    (previewRows txs).length = min 50 txs.length ∧
    (allRows txs).length = txs.length ∧
    (∀ i : Fin txs.length, (i : ℕ) < 50 →
        (previewRows txs).getD i [] = renderRow (txs.get i)) ∧
    (∀ i : Fin txs.length, (allRows txs).getD i [] = renderRow (txs.get i)) ∧
    (∀ st : ToolState, st.extractedData.transactions = txs → txs ≠ [] →
        (updateExcelPreview st).excelBody =
          .rows (previewRows txs) (decide (txs.length > 50)) ∧
        (showAllTransactions st).excelBody = .rows (allRows txs) false) := by
  refine ⟨by simp [previewRows], by simp [allRows], ?_, ?_, ?_⟩
  · intro i h
    have hlen : (i : ℕ) < (previewRows txs).length := by
      simp [previewRows, List.length_take]
      omega
    rw [List.getD_eq_getElem _ _ hlen]
    simp [previewRows, List.getElem_take, List.getElem_map]
  · intro i
    have hlen : (i : ℕ) < (allRows txs).length := by simp [allRows]
    rw [List.getD_eq_getElem _ _ hlen]
    simp [allRows, List.getElem_map]
  · intro st hst hne
    exact ⟨by simp [updateExcelPreview, hst, hne],
           by simp [showAllTransactions, hst, hne]⟩

/-- Witness for C8 at a concrete two-transaction list: row 1 of the preview
is the rendering of transaction 1. -/
theorem c8_order_preserved_witness :
    (1 : ℕ) < 50 ∧
    (previewRows [tx1, tx2]).getD 1 [] =
      renderRow ([tx1, tx2].get ⟨1, by decide⟩) :=
  ⟨by decide,
   (c8_order_preserved [tx1, tx2]).2.2.1 ⟨1, by decide⟩ (by decide)⟩

/-- C9: `handleFile` rejects every file whose lower-cased name does not end
in ".pdf" with an error notification, before touching anything: the whole
tool state — `selectedFile`, `extractedData`, button enablement and all —
is returned unchanged. -/
theorem c9_non_pdf_rejected (st : ToolState) (f : FileInfo)
    (h : isPdfName f.name = false) :
    handleFile st f = (st, [("Please select a PDF file.", "error")]) := by
  simp [handleFile, h]

/-- Witness for C9: a .docx file is rejected and the initial state is kept. -/
theorem c9_non_pdf_rejected_witness :
    isPdfName docxFile.name = false ∧
    handleFile initState docxFile =
      (initState, [("Please select a PDF file.", "error")]) :=
  ⟨by decide, c9_non_pdf_rejected initState docxFile (by decide)⟩

/-- C10: the usage counters change exactly as claimed and nothing else moves
with them — a successful download increments both counters by one and leaves
every other part of the state (including `lastResetDate`) unchanged; a
failed or error download leaves the state untouched; `loadUserData` on a
later calendar day zeroes `todayFilesProcessed` and stamps today while
keeping `totalFilesProcessed`, and on the same day changes nothing. -/
theorem c10_counters (st : ToolState) (r : DownloadResponse) (d : UserData)
    (today : String) (hne : st.extractedData.transactions ≠ []) :
    (r.success = true →
        (downloadExcelFile st (some r)).1 =
          { st with userData :=
              { st.userData with
                  totalFilesProcessed := st.userData.totalFilesProcessed + 1
                  todayFilesProcessed := st.userData.todayFilesProcessed + 1 } }) ∧
    (r.success = false → (downloadExcelFile st (some r)).1 = st) ∧
    (downloadExcelFile st none).1 = st ∧
    (d.lastResetDate ≠ today →
        loadUserData (some d) today =
          { d with todayFilesProcessed := 0, lastResetDate := today }) ∧
    (d.lastResetDate = today → loadUserData (some d) today = d) := by
  refine ⟨?_, ?_, ?_, ?_, ?_⟩
  · intro hs
    simp [downloadExcelFile, hne, hs]
  · intro hs
    simp [downloadExcelFile, hne, hs]
  · simp [downloadExcelFile, hne]
  · intro hd
    simp [loadUserData, hd]
  · intro hd
    simp [loadUserData, hd]

/-- Witness for C10: a successful download at the concrete parsed state, and
a day rollover on a saved record. -/
theorem c10_counters_witness :
    parsedState.extractedData.transactions ≠ [] ∧
    UserData.lastResetDate ⟨7, 2, "Sat Oct 11 2025"⟩ ≠ "Sun Oct 12 2025" ∧
    loadUserData (some ⟨7, 2, "Sat Oct 11 2025"⟩) "Sun Oct 12 2025" =
      ⟨7, 0, "Sun Oct 12 2025"⟩ :=
  ⟨by simp [parsedState_transactions], by decide,
   (c10_counters parsedState okResponse ⟨7, 2, "Sat Oct 11 2025"⟩
      "Sun Oct 12 2025" (by simp [parsedState_transactions])).2.2.2.1 (by decide)⟩

end Relieve
